import Mathlib

/-!
Verification of the resume-intelligence client/orchestration layer.

The Python sources `roe_ai.py` (Agent Client and the three extractor
wrappers) and `app.py` (session orchestrator and presentation helpers)
are shallowly embedded below.  Side effects are made explicit:

* the HTTP transport (`requests.post`) is a parameter of type
  `HttpRequest → PostOutcome`; every embedded operation also returns the
  list of requests it issued, so "no network call" is `[]`;
* the local file system (`open(..., "rb")`) is a parameter
  `String → Option String` (`none` models `FileNotFoundError`);
* the process environment (`os.environ.get`) is a parameter
  `String → Option String`;
* Python exceptions are values of `PyExn`; a function whose Python body
  can raise an exception that is not caught inside it returns `Except
  PyExn _`, while a function that catches everything returns a plain
  value;
* Python `json.loads` / `json.dumps` are embedded as an executable JSON
  reader and writer over the `Json` type below.  JSON numerals are
  modelled as integers (the only numeric shape appearing in this
  program's data); float syntax, exponents and lone surrogates are
  outside the model.
-/

/-- JSON values, as produced by Python `json.loads`: `null` is Python
`None`, objects keep their key order (Python dicts preserve insertion
order). -/
inductive Json where
  | null : Json
  | bool : Bool → Json
  | num : Int → Json
  | str : String → Json
  | arr : List Json → Json
  | obj : List (String × Json) → Json

mutual

/-- Python `==` on decoded JSON values: structural equality. -/
def jsonBeq : Json → Json → Bool
  | Json.null, Json.null => true
  | Json.bool a, Json.bool b => a == b
  | Json.num a, Json.num b => a == b
  | Json.str a, Json.str b => a == b
  | Json.arr a, Json.arr b => jsonArrBeq a b
  | Json.obj a, Json.obj b => jsonObjBeq a b
  | _, _ => false

/-- Elementwise Python `==` on lists of JSON values. -/
def jsonArrBeq : List Json → List Json → Bool
  | [], [] => true
  | x :: xs, y :: ys => jsonBeq x y && jsonArrBeq xs ys
  | _, _ => false

/-- Memberwise Python `==` on object member lists. -/
def jsonObjBeq : List (String × Json) → List (String × Json) → Bool
  | [], [] => true
  | kv :: xs, kw :: ys => kv.1 == kw.1 && jsonBeq kv.2 kw.2 && jsonObjBeq xs ys
  | _, _ => false

end

/-- The opening-brace character, written by code point to keep brace
characters out of literals. -/
def lbrace : Char := Char.ofNat 123

/-- The closing-brace character. -/
def rbrace : Char := Char.ofNat 125

/-- JSON insignificant whitespace (space, tab, line feed, carriage
return). -/
def isJsonWs (c : Char) : Bool :=
  c = ' ' || c = '\t' || c = '\n' || c = '\r'

/-- Drop leading JSON whitespace. -/
def skipWs : List Char → List Char
  | [] => []
  | c :: rest => if isJsonWs c then skipWs rest else c :: rest

/-- Value of a hexadecimal digit character, if it is one. -/
def hexVal (c : Char) : Option Nat :=
  if c.isDigit then some (c.toNat - 48)
  else if 97 ≤ c.toNat ∧ c.toNat ≤ 102 then some (c.toNat - 87)
  else if 65 ≤ c.toNat ∧ c.toNat ≤ 70 then some (c.toNat - 55)
  else none

/-- Longest leading run of decimal digits. -/
def takeDigits : List Char → List Char × List Char
  | [] => ([], [])
  | c :: rest =>
    if c.isDigit then
      let (ds, rem) := takeDigits rest
      (c :: ds, rem)
    else ([], c :: rest)

/-- Natural number denoted by a digit run. -/
def natOfDigits (ds : List Char) : Nat :=
  ds.foldl (fun a c => a * 10 + (c.toNat - 48)) 0

/-- Body of a JSON string literal after the opening quote: returns the
decoded characters and the input following the closing quote.  Escape
sequences are decoded as Python `json.loads` does, with UTF-16
surrogate pairs combined into one character. -/
def parseStringBody : Nat → List Char → Option (List Char × List Char)
  | 0, _ => none
  | _, [] => none
  | fuel + 1, c :: rest =>
    if c = '"' then some ([], rest)
    else if c = '\\' then
      match rest with
      | '"' :: rest2 => (parseStringBody fuel rest2).map fun p => ('"' :: p.1, p.2)
      | '\\' :: rest2 => (parseStringBody fuel rest2).map fun p => ('\\' :: p.1, p.2)
      | '/' :: rest2 => (parseStringBody fuel rest2).map fun p => ('/' :: p.1, p.2)
      | 'b' :: rest2 => (parseStringBody fuel rest2).map fun p => (Char.ofNat 8 :: p.1, p.2)
      | 'f' :: rest2 => (parseStringBody fuel rest2).map fun p => (Char.ofNat 12 :: p.1, p.2)
      | 'n' :: rest2 => (parseStringBody fuel rest2).map fun p => ('\n' :: p.1, p.2)
      | 'r' :: rest2 => (parseStringBody fuel rest2).map fun p => ('\r' :: p.1, p.2)
      | 't' :: rest2 => (parseStringBody fuel rest2).map fun p => ('\t' :: p.1, p.2)
      | 'u' :: h1 :: h2 :: h3 :: h4 :: rest2 =>
        match hexVal h1, hexVal h2, hexVal h3, hexVal h4 with
        | some a, some b, some c2, some d =>
          let n := a * 4096 + b * 256 + c2 * 16 + d
          if 55296 ≤ n ∧ n ≤ 56319 then
            match rest2 with
            | '\\' :: 'u' :: g1 :: g2 :: g3 :: g4 :: rest3 =>
              match hexVal g1, hexVal g2, hexVal g3, hexVal g4 with
              | some a2, some b2, some c3, some d2 =>
                let m := a2 * 4096 + b2 * 256 + c3 * 16 + d2
                if 56320 ≤ m ∧ m ≤ 57343 then
                  let cp := 65536 + (n - 55296) * 1024 + (m - 56320)
                  (parseStringBody fuel rest3).map fun p => (Char.ofNat cp :: p.1, p.2)
                else none
              | _, _, _, _ => none
            | _ => none
          else if 56320 ≤ n ∧ n ≤ 57343 then none
          else (parseStringBody fuel rest2).map fun p => (Char.ofNat n :: p.1, p.2)
        | _, _, _, _ => none
      | _ => none
    else if c.toNat < 32 then none
    else (parseStringBody fuel rest).map fun p => (c :: p.1, p.2)

mutual

/-- One JSON value from the head of the input, whitespace-tolerant,
returning the remaining input. -/
def parseValue : Nat → List Char → Option (Json × List Char)
  | 0, _ => none
  | fuel + 1, cs =>
    match skipWs cs with
    | [] => none
    | c :: rest =>
      if c = '"' then
        (parseStringBody (fuel + 1) rest).map fun p => (Json.str (String.mk p.1), p.2)
      else if c = '[' then
        match skipWs rest with
        | ']' :: rest2 => some (Json.arr [], rest2)
        | more =>
          match parseValue fuel more with
          | some (v, rem) => parseArrayTail fuel [v] rem
          | none => none
      else if c = lbrace then
        match skipWs rest with
        | more =>
          match more with
          | c2 :: rest2 =>
            if c2 = rbrace then some (Json.obj [], rest2)
            else
              match parseMember fuel more with
              | some (kv, rem) => parseObjTail fuel [kv] rem
              | none => none
          | [] => none
      else if c = 't' then
        match rest with
        | 'r' :: 'u' :: 'e' :: rest2 => some (Json.bool true, rest2)
        | _ => none
      else if c = 'f' then
        match rest with
        | 'a' :: 'l' :: 's' :: 'e' :: rest2 => some (Json.bool false, rest2)
        | _ => none
      else if c = 'n' then
        match rest with
        | 'u' :: 'l' :: 'l' :: rest2 => some (Json.null, rest2)
        | _ => none
      else if c = '-' then
        match takeDigits rest with
        | ([], _) => none
        | (ds, rem) => some (Json.num (-(natOfDigits ds : Int)), rem)
      else if c.isDigit then
        match takeDigits (c :: rest) with
        | (ds, rem) => some (Json.num (natOfDigits ds : Int), rem)
      else none

/-- Remaining elements of a JSON array after at least one element has
been read; `acc` holds the elements read so far, in reverse. -/
def parseArrayTail : Nat → List Json → List Char → Option (Json × List Char)
  | 0, _, _ => none
  | fuel + 1, acc, cs =>
    match skipWs cs with
    | c :: rest =>
      if c = ']' then some (Json.arr acc.reverse, rest)
      else if c = ',' then
        match parseValue fuel rest with
        | some (v, rem) => parseArrayTail fuel (v :: acc) rem
        | none => none
      else none
    | [] => none

/-- One `"key": value` member of a JSON object. -/
def parseMember : Nat → List Char → Option ((String × Json) × List Char)
  | 0, _ => none
  | fuel + 1, cs =>
    match skipWs cs with
    | c :: rest =>
      if c = '"' then
        match parseStringBody (fuel + 1) rest with
        | some (k, rem) =>
          match skipWs rem with
          | ':' :: rem2 =>
            match parseValue fuel rem2 with
            | some (v, rem3) => some ((String.mk k, v), rem3)
            | none => none
          | _ => none
        | none => none
      else none
    | [] => none

/-- Remaining members of a JSON object after at least one member has
been read; `acc` holds the members read so far, in reverse. -/
def parseObjTail : Nat → List (String × Json) → List Char → Option (Json × List Char)
  | 0, _, _ => none
  | fuel + 1, acc, cs =>
    match skipWs cs with
    | c :: rest =>
      if c = rbrace then some (Json.obj acc.reverse, rest)
      else if c = ',' then
        match parseMember fuel rest with
        | some (kv, rem) => parseObjTail fuel (kv :: acc) rem
        | none => none
      else none
    | [] => none

end

/-- Python `json.loads` on a string: parse one value and require only
whitespace after it; `none` is a `json.JSONDecodeError`. -/
def pyJsonLoads (s : String) : Option Json :=
  match parseValue (s.length + 1) s.data with
  | some (v, rem) => if skipWs rem = [] then some v else none
  | none => none

/-- Lowercase hexadecimal digit for a value below 16. -/
def hexDigit (n : Nat) : Char :=
  if n < 10 then Char.ofNat (48 + n) else Char.ofNat (87 + n)

/-- Four-digit lowercase hexadecimal rendering, as in a `\uXXXX`
escape. -/
def hex4 (n : Nat) : List Char :=
  [hexDigit (n / 4096 % 16), hexDigit (n / 256 % 16), hexDigit (n / 16 % 16), hexDigit (n % 16)]

/-- `\uXXXX` escape for a code point, using a surrogate pair above the
basic multilingual plane, as Python `json.dumps` with `ensure_ascii`
does. -/
def uEscape (n : Nat) : List Char :=
  if n < 65536 then '\\' :: 'u' :: hex4 n
  else
    let m := n - 65536
    ('\\' :: 'u' :: hex4 (55296 + m / 1024)) ++ ('\\' :: 'u' :: hex4 (56320 + m % 1024))

/-- How Python `json.dumps` writes one character inside a string
literal: short escapes for the two-character escapes, the character
itself for printable ASCII, `\uXXXX` otherwise. -/
def escapeJsonChar (c : Char) : List Char :=
  if c = '"' then ['\\', '"']
  else if c = '\\' then ['\\', '\\']
  else if c = '\n' then ['\\', 'n']
  else if c = '\t' then ['\\', 't']
  else if c = '\r' then ['\\', 'r']
  else if c = Char.ofNat 8 then ['\\', 'b']
  else if c = Char.ofNat 12 then ['\\', 'f']
  else if 32 ≤ c.toNat ∧ c.toNat ≤ 126 then [c]
  else uEscape c.toNat

/-- String-literal body written by `json.dumps`. -/
def escapeString (l : List Char) : List Char :=
  l.foldr (fun c acc => escapeJsonChar c ++ acc) []

mutual

/-- Python `json.dumps` with its default separators (`", "` and
`": "`). -/
def dumpsJson : Json → List Char
  | Json.null => ['n', 'u', 'l', 'l']
  | Json.bool true => ['t', 'r', 'u', 'e']
  | Json.bool false => ['f', 'a', 'l', 's', 'e']
  | Json.num n => (toString n).data
  | Json.str s => '"' :: escapeString s.data ++ ['"']
  | Json.arr [] => ['[', ']']
  | Json.arr (x :: xs) => '[' :: (dumpsJson x ++ dumpsArrTail xs) ++ [']']
  | Json.obj [] => [lbrace, rbrace]
  | Json.obj (kv :: kvs) => lbrace :: (dumpsMember kv ++ dumpsObjTail kvs) ++ [rbrace]

/-- Later array elements, each preceded by the `", "` separator. -/
def dumpsArrTail : List Json → List Char
  | [] => []
  | x :: xs => ',' :: ' ' :: (dumpsJson x ++ dumpsArrTail xs)

/-- One object member as `"key": value`. -/
def dumpsMember : String × Json → List Char
  | (k, v) => ('"' :: escapeString k.data ++ ['"', ':', ' ']) ++ dumpsJson v

/-- Later object members, each preceded by the `", "` separator. -/
def dumpsObjTail : List (String × Json) → List Char
  | [] => []
  | kv :: kvs => ',' :: ' ' :: (dumpsMember kv ++ dumpsObjTail kvs)

end

/-- Python `json.dumps` of a decoded value, as a string. -/
def pyJsonDumps (j : Json) : String :=
  String.mk (dumpsJson j)

/-- Python `json.dumps` applied to a value that is itself a Python
string: the result is the input wrapped in quotes with its quotes and
backslashes escaped. -/
def pyJsonDumpsOfStr (s : String) : String :=
  pyJsonDumps (Json.str s)

/-- A Python exception that escapes the expression raising it. -/
inductive PyExn where
  | typeError : PyExn
  | keyError : PyExn
  | indexError : PyExn
  | attributeError : PyExn
  | unboundLocalError : PyExn
  | jsonDecodeError : PyExn
deriving DecidableEq

/-- The one file part of the multipart upload body:
`files = \x7b"pdf_file": (basename, file, "application/pdf")\x7d`. -/
structure FilePart where
  fieldName : String
  filename : String
  content : String
  contentType : String
deriving DecidableEq

/-- One `requests.post` call as the client issues it: target URL,
bearer token from the `Authorization` header, `data` form fields, and
the optional multipart file part. -/
structure HttpRequest where
  url : String
  bearerToken : String
  data : List (String × String)
  files : Option FilePart
deriving DecidableEq

/-- What `requests.post` does with a request: raise a
`requests.exceptions.RequestException` (timeout, connection refused,
DNS failure, redirect loop), or complete with a final status code and
body. -/
inductive PostOutcome where
  | exnRequest : PostOutcome
  | response : Nat → String → PostOutcome

/-- Python truthiness of `os.environ.get`: falsy when the variable is
absent or the empty string, as tested by `if not AGENT_ID or not
BEARER_TOKEN`. -/
def pyFalsyStr : Option String → Bool
  | none => true
  | some s => s = ""

/-- `os.path.basename`: the part of the path after the last slash. -/
def osPathBasename (p : String) : String :=
  String.mk ((p.data.reverse.takeWhile (fun c => c != '/')).reverse)

/-- The fixed endpoint `https://api.roe-ai.com/v1/agents/run/\x7bagent_id\x7d/`. -/
def roeAgentUrl (agent_id : String) : String :=
  "https://api.roe-ai.com/v1/agents/run/" ++ agent_id ++ "/"

/-- `response.raise_for_status()` raises `requests.exceptions.HTTPError`
exactly for 4xx and 5xx final status codes. -/
def raiseForStatus (status : Nat) : Bool :=
  decide (400 ≤ status ∧ status < 600)

/-- `roe_ai.process_document_with_ai_agent`: open the file in binary
mode (a missing file raises `FileNotFoundError` before any request is
sent), POST a multipart body with the instruction and page-filter
fields and the bearer header, raise for bad statuses, parse the body as
JSON.  Every raised `FileNotFoundError`, `RequestException` or
`ValueError` is caught and becomes `none`.  Alongside the result it
returns the list of requests handed to the transport. -/
def process_document_with_ai_agent (transport : HttpRequest → PostOutcome)
    (fs : String → Option String)
    (agent_id bearer_token pdf_path instruction page_range : String) :
    Option Json × List HttpRequest :=
  let url := roeAgentUrl agent_id
  let data := [("instruction", instruction), ("page_filter", page_range)]
  match fs pdf_path with
  | none => (none, [])
  | some content =>
    let req : HttpRequest :=
      ⟨url, bearer_token, data, some ⟨"pdf_file", osPathBasename pdf_path, content, "application/pdf"⟩⟩
    match transport req with
    | PostOutcome.exnRequest => (none, [req])
    | PostOutcome.response status body =>
      if raiseForStatus status then (none, [req])
      else
        match pyJsonLoads body with
        | some j => (some j, [req])
        | none => (none, [req])

/-- `roe_ai.process_url_with_ai_agent`: POST the given form fields with
the bearer header to the agent endpoint, raise for bad statuses, parse
the body as JSON; every raised `RequestException` or `ValueError` is
caught and becomes `none`. -/
def process_url_with_ai_agent (transport : HttpRequest → PostOutcome)
    (agent_id bearer_token : String) (data : List (String × String)) :
    Option Json × List HttpRequest :=
  let url := roeAgentUrl agent_id
  let req : HttpRequest := ⟨url, bearer_token, data, none⟩
  match transport req with
  | PostOutcome.exnRequest => (none, [req])
  | PostOutcome.response status body =>
    if raiseForStatus status then (none, [req])
    else
      match pyJsonLoads body with
      | some j => (some j, [req])
      | none => (none, [req])

/-- `roe_ai.process_text_with_ai_agent`: same request, auth and error
handling as the URL variant, with the form fields carrying `prompt` and
`target`. -/
def process_text_with_ai_agent (transport : HttpRequest → PostOutcome)
    (agent_id bearer_token : String) (data : List (String × String)) :
    Option Json × List HttpRequest :=
  let url := roeAgentUrl agent_id
  let req : HttpRequest := ⟨url, bearer_token, data, none⟩
  match transport req with
  | PostOutcome.exnRequest => (none, [req])
  | PostOutcome.response status body =>
    if raiseForStatus status then (none, [req])
    else
      match pyJsonLoads body with
      | some j => (some j, [req])
      | none => (none, [req])

/-- First value stored under a key in an association list. -/
def assocFind {κ : Type} [DecidableEq κ] {α : Type} (k : κ) : List (κ × α) → Option α
  | [] => none
  | kv :: rest => if k = kv.1 then some kv.2 else assocFind k rest

/-- Cache for the document operation, keyed by its full argument tuple
`(agent_id, bearer_token, pdf_path, instruction, page_range)`. -/
abbrev DocCache := List ((String × String × String × String × String) × Option Json)

/-- Cache for the URL and text operations, keyed by their full argument
tuple `(agent_id, bearer_token, data)`. -/
abbrev FormCache := List ((String × String × List (String × String)) × Option Json)

/-- Modelled from Streamlit's documented `@st.cache_data` decorator on
`process_document_with_ai_agent` (library code, not in this
repository): the returned value, `None` included, is memoized for the
session keyed by the full argument tuple; a hit returns the stored
value without running the body, so without touching the transport. -/
def process_document_with_ai_agent_cached (transport : HttpRequest → PostOutcome)
    (fs : String → Option String) (cache : DocCache)
    (agent_id bearer_token pdf_path instruction page_range : String) :
    Option Json × DocCache × List HttpRequest :=
  match assocFind (agent_id, bearer_token, pdf_path, instruction, page_range) cache with
  | some cached => (cached, cache, [])
  | none =>
    let (r, reqs) := process_document_with_ai_agent transport fs agent_id bearer_token pdf_path instruction page_range
    (r, ((agent_id, bearer_token, pdf_path, instruction, page_range), r) :: cache, reqs)

/-- Modelled from Streamlit's documented `@st.cache_data` decorator on
`process_url_with_ai_agent`, as for the document variant. -/
def process_url_with_ai_agent_cached (transport : HttpRequest → PostOutcome)
    (cache : FormCache) (agent_id bearer_token : String) (data : List (String × String)) :
    Option Json × FormCache × List HttpRequest :=
  match assocFind (agent_id, bearer_token, data) cache with
  | some cached => (cached, cache, [])
  | none =>
    let (r, reqs) := process_url_with_ai_agent transport agent_id bearer_token data
    (r, ((agent_id, bearer_token, data), r) :: cache, reqs)

/-- Modelled from Streamlit's documented `@st.cache_data` decorator on
`process_text_with_ai_agent`, as for the document variant. -/
def process_text_with_ai_agent_cached (transport : HttpRequest → PostOutcome)
    (cache : FormCache) (agent_id bearer_token : String) (data : List (String × String)) :
    Option Json × FormCache × List HttpRequest :=
  match assocFind (agent_id, bearer_token, data) cache with
  | some cached => (cached, cache, [])
  | none =>
    let (r, reqs) := process_text_with_ai_agent transport agent_id bearer_token data
    (r, ((agent_id, bearer_token, data), r) :: cache, reqs)

/-- The fixed fit-evaluation rubric prompt of
`roe_ai.evaluate_candidate_job_fit`, with Python's implicit
concatenation of the adjacent string literals reproduced exactly. -/
def fitEvaluationPrompt : String :=
  "Perform a comprehensive assessment of how well the candidate matches "
    ++ "the job requirements. Provide a detailed analysis including:"
    ++ "1. Percentage match of skills and experience"
    ++ "2. Strengths that align with the job"
    ++ "3. Potential skill gaps"
    ++ "4. Overall recommendation (Strong Fit/Moderate Fit/Weak Fit)"
    ++ "output example: \x7b\"percentage_match\": 75, \"overall_recommendation\": \"Strong Fit\", \"strengths\": [\"Strong Python skills\", \"ML background\"], \"potential_skill_gaps\": [\"Advanced cloud computing\"]\x7d"

/-- The `target` form field built by `roe_ai.evaluate_candidate_job_fit`:
both inputs, already strings at this point, passed through `json.dumps`
once more and glued between the two labeled headers. -/
def fitEvaluationTarget (candidate_insights job_details : String) : String :=
  "Candidate Insights:\n" ++ pyJsonDumpsOfStr candidate_insights ++ "\n\n"
    ++ "Job Details:\n" ++ pyJsonDumpsOfStr job_details

/-- `roe_ai.evaluate_candidate_job_fit`: read the
`ROE_AI_EVALUATE_AGENT` and `ROE_AI_BEARER_TOKEN` credentials, bail out
with `None` before any network work when either is falsy, otherwise
send the rubric prompt and the double-serialized target through the
text operation; a `None` result raises a `ValueError` that the
surrounding `except` turns back into `None`. -/
def evaluate_candidate_job_fit (transport : HttpRequest → PostOutcome)
    (env : String → Option String) (candidate_insights job_details : String) :
    Option Json × List HttpRequest :=
  let agentId := env "ROE_AI_EVALUATE_AGENT"
  let bearerToken := env "ROE_AI_BEARER_TOKEN"
  if pyFalsyStr agentId || pyFalsyStr bearerToken then (none, [])
  else
    let data := [("prompt", fitEvaluationPrompt),
                 ("target", fitEvaluationTarget candidate_insights job_details)]
    match process_text_with_ai_agent transport (agentId.getD "") (bearerToken.getD "") data with
    | (none, reqs) => (none, reqs)
    | (some r, reqs) => (some r, reqs)

/-- `roe_ai.generate_insights`: read the `ROE_AI_AGENT_ID` and
`ROE_AI_BEARER_TOKEN` credentials, return `None` before any network
work when either is falsy, otherwise delegate to the document
operation. -/
def generate_insights (transport : HttpRequest → PostOutcome)
    (fs : String → Option String) (env : String → Option String)
    (pdf_path instruction page_range : String) :
    Option Json × List HttpRequest :=
  let agentId := env "ROE_AI_AGENT_ID"
  let bearerToken := env "ROE_AI_BEARER_TOKEN"
  if pyFalsyStr agentId || pyFalsyStr bearerToken then (none, [])
  else
    process_document_with_ai_agent transport fs (agentId.getD "") (bearerToken.getD "")
      pdf_path instruction page_range

/-- `roe_ai.extract_job_details`: read the `ROE_AI_JOB_AGENT` and
`ROE_AI_BEARER_TOKEN` credentials, return `None` before any network
work when either is falsy, otherwise send the URL, the fixed
extraction instruction, the form selector and the dumped form fields
(empty string for a falsy mapping) through the URL operation; a `None`
result raises a `ValueError` that the surrounding `except` turns back
into `None`. -/
def extract_job_details (transport : HttpRequest → PostOutcome)
    (env : String → Option String) (url form_selector : String)
    (form_fields : Option (List (String × String))) :
    Option Json × List HttpRequest :=
  let agentId := env "ROE_AI_JOB_AGENT"
  let bearerToken := env "ROE_AI_BEARER_TOKEN"
  if pyFalsyStr agentId || pyFalsyStr bearerToken then (none, [])
  else
    let data := [("url", url),
      ("instruction", "Extract key responsibilities and requirements from this job description"),
      ("form_selector", form_selector),
      ("form_fields",
        match form_fields with
        | some ff =>
          if ff.isEmpty then ""
          else pyJsonDumps (Json.obj (ff.map (fun kv => (kv.1, Json.str kv.2))))
        | none => "")]
    match process_url_with_ai_agent transport (agentId.getD "") (bearerToken.getD "") data with
    | (none, reqs) => (none, reqs)
    | (some r, reqs) => (some r, reqs)

/-- Python subscripting `v[i]` with a non-negative integer index, where
`v` may be `None`: `None` is not subscriptable, a list yields the
element or an `IndexError`, a dict with string keys never holds the
integer key, a string yields its one-character slice. -/
def pySubscriptNat (v : Option Json) (i : Nat) : Except PyExn Json :=
  match v with
  | none => Except.error PyExn.typeError
  | some (Json.arr l) =>
    match l.get? i with
    | some x => Except.ok x
    | none => Except.error PyExn.indexError
  | some (Json.obj _) => Except.error PyExn.keyError
  | some (Json.str s) =>
    match s.data.get? i with
    | some c => Except.ok (Json.str (String.mk [c]))
    | none => Except.error PyExn.indexError
  | some _ => Except.error PyExn.typeError

/-- Python subscripting `v["key"]` with a string key: a dict yields the
value or a `KeyError`; lists and strings reject string indices; other
values are not subscriptable. -/
def pySubscriptStr (v : Json) (key : String) : Except PyExn Json :=
  match v with
  | Json.obj fields =>
    match assocFind key fields with
    | some x => Except.ok x
    | none => Except.error PyExn.keyError
  | _ => Except.error PyExn.typeError

/-- Python `json.loads` applied to a decoded value: only a string may
be decoded, and a malformed document raises `json.JSONDecodeError`. -/
def pyJsonLoadsValue (v : Json) : Except PyExn Json :=
  match v with
  | Json.str s =>
    match pyJsonLoads s with
    | some j => Except.ok j
    | none => Except.error PyExn.jsonDecodeError
  | _ => Except.error PyExn.typeError

/-- Python `dict.get(key, default)`: only dicts have `.get`; a missing
key gives the default. -/
def pyDictGet (v : Json) (key : String) (default : Json) : Except PyExn Json :=
  match v with
  | Json.obj fields =>
    match assocFind key fields with
    | some x => Except.ok x
    | none => Except.ok default
  | _ => Except.error PyExn.attributeError

/-- Whether the second list begins with the first. -/
def listStartsWith : List Char → List Char → Bool
  | [], _ => true
  | _ :: _, [] => false
  | a :: as, b :: bs => a == b && listStartsWith as bs

/-- Whether the first list occurs contiguously inside the second. -/
def listContainsSeq (pat : List Char) : List Char → Bool
  | [] => listStartsWith pat []
  | c :: rest => listStartsWith pat (c :: rest) || listContainsSeq pat rest

/-- Python `field in container` for a string `field`: key membership
in a dict, element equality in a list, substring in a string; other
containers raise `TypeError`. -/
def pyContains (field : String) (container : Json) : Except PyExn Bool :=
  match container with
  | Json.obj fields => Except.ok (fields.any (fun kv => kv.1 == field))
  | Json.arr l => Except.ok (l.any (fun x => jsonBeq x (Json.str field)))
  | Json.str s => Except.ok (listContainsSeq field.data s.data)
  | _ => Except.error PyExn.typeError

/-- `all(field in insights for field in required_fields)` with Python's
short-circuiting. -/
def pyAllFieldsIn (fields : List String) (j : Json) : Except PyExn Bool :=
  match fields with
  | [] => Except.ok true
  | f :: rest => do
    let b ← pyContains f j
    if b then pyAllFieldsIn rest j else pure false

/-- Python truthiness of a decoded JSON value, as tested by
`if result:`. -/
def pyTruthyJson : Json → Bool
  | Json.null => false
  | Json.bool b => b
  | Json.num n => n != 0
  | Json.str s => s != ""
  | Json.arr l => !l.isEmpty
  | Json.obj fields => !fields.isEmpty

/-- A decoded JSON value as a Python number for an order comparison:
numbers stand for themselves, booleans count as 0 and 1, anything else
raises `TypeError` when compared with an integer literal. -/
def pyNumOfJson : Json → Except PyExn ℚ
  | Json.num n => Except.ok (n : ℚ)
  | Json.bool b => Except.ok (if b then 1 else 0)
  | _ => Except.error PyExn.typeError

/-- `app._get_proficiency_label`: `<= 2` is Beginner, `<= 4` is
Intermediate, anything larger is Advanced. -/
def _get_proficiency_label (proficiency : ℚ) : String :=
  if proficiency ≤ 2 then "Beginner"
  else if proficiency ≤ 4 then "Intermediate"
  else "Advanced"

/-- One `skill-badge` span written by `app._render_skills`: the
interpolated skill name, and the `skill-proficiency` span's label when
the labeling branch ran. -/
structure SkillBadge where
  name : Json
  proficiencyLabel : Option String

/-- The markdown written by `app._render_skills`: a run of badges, or
the fixed no-skills line. -/
inductive SkillsMarkdown where
  | badges : List SkillBadge → SkillsMarkdown
  | noSkills : SkillsMarkdown

/-- `app._render_skills`: for a truthy list, each skill contributes a
badge with `skill.get("name", "Unnamed Skill")`; the proficiency label
is attached only when `skill.get("proficiency")` is not `None`,
otherwise the labeling branch is skipped; an empty list writes the
no-skills line. -/
def _render_skills (skills : List Json) : Except PyExn SkillsMarkdown := do
  if skills.isEmpty then
    pure SkillsMarkdown.noSkills
  else
    let bs ← skills.mapM (fun skill => do
      let skill_name ← pyDictGet skill "name" (Json.str "Unnamed Skill")
      let proficiency ← pyDictGet skill "proficiency" Json.null
      match proficiency with
      | Json.null => pure (⟨skill_name, none⟩ : SkillBadge)
      | p => do
        let q ← pyNumOfJson p
        pure (⟨skill_name, some (_get_proficiency_label q)⟩ : SkillBadge))
    pure (SkillsMarkdown.badges bs)

/-- One row of the `chart_data` list built by
`app._create_skills_chart`. -/
structure ChartRow where
  skill : Json
  proficiency : Json

/-- `app._create_skills_chart`: the `chart_data` rows, the data frame
and the two tab handles are bound only inside the `if skills:` branch,
but the `with tab1:` block that follows is dedented out of that branch
and runs unconditionally, so an empty list reaches an unbound `tab1`;
rows substitute `skill.get("proficiency", 0)` for a missing
proficiency.  The Altair styling inside the tabs (including the
y-domain arithmetic) is presentation and outside the model. -/
def _create_skills_chart (skills : List Json) : Except PyExn (List ChartRow) := do
  let bound ←
    if skills.isEmpty then pure (none : Option (List ChartRow))
    else do
      let rows ← skills.mapM (fun skill => do
        let name ← pyDictGet skill "name" (Json.str "Unnamed Skill")
        let prof ← pyDictGet skill "proficiency" (Json.num 0)
        pure (⟨name, prof⟩ : ChartRow))
      pure (some rows)
  match bound with
  | none => Except.error PyExn.unboundLocalError
  | some rows => pure rows

/-- `app._render_recommendation`: `match_assessment.get` with default
`"Unknown"`, then the two-entry `color_map` looked up with default
`("red", "❌")`; returns the color, the emoji and the rendered
recommendation value.  An unhashable recommendation (a decoded list or
object) would raise from the dict lookup. -/
def _render_recommendation (match_assessment : Json) :
    Except PyExn (String × String × Json) :=
  match pyDictGet match_assessment "overall_recommendation" (Json.str "Unknown") with
  | Except.error e => Except.error e
  | Except.ok recommendation =>
    match recommendation with
    | Json.arr _ => Except.error PyExn.typeError
    | Json.obj _ => Except.error PyExn.typeError
    | r =>
      let cm :=
        if jsonBeq r (Json.str "Strong Fit") then ("green", "✅")
        else if jsonBeq r (Json.str "Moderate Fit") then ("orange", "⚠️")
        else ("red", "❌")
      Except.ok (cm.1, cm.2, r)

/-- `app._extract_resume_insights`: the uploaded bytes go to a scoped
temporary file whose path is handed to `generate_insights`; the result
is subscripted as `result[0]["value"]`, decoded a second time with
`json.loads`, and checked for the `name`, `email` and `skills` fields —
`Except.ok (some insights)` is the success message plus returned
insights, `Except.ok none` the schema warning plus `None`.  None of
this is inside a `try`, so any exception raised on the way (for
instance `result[0]` on a `None` result) propagates to the caller,
which the `Except.error` branch records. -/
def _extract_resume_insights (transport : HttpRequest → PostOutcome)
    (env : String → Option String)
    (uploaded_file_content insights_prompt page_filter : String) :
    Except PyExn (Option Json) × List HttpRequest :=
  let temp_file_path := "/tmp/resume_upload.pdf"
  let fs : String → Option String :=
    fun q => if q = temp_file_path then some uploaded_file_content else none
  let (result, reqs) :=
    generate_insights transport fs env temp_file_path insights_prompt page_filter
  match (do
      let v0 ← pySubscriptNat result 0
      let value ← pySubscriptStr v0 "value"
      pyJsonLoadsValue value : Except PyExn Json) with
  | Except.error e => (Except.error e, reqs)
  | Except.ok insights =>
    match pyAllFieldsIn ["name", "email", "skills"] insights with
    | Except.error e => (Except.error e, reqs)
    | Except.ok true => (Except.ok (some insights), reqs)
    | Except.ok false => (Except.ok none, reqs)

/-- What `app._assess_job_match` leaves on the page. -/
inductive AssessOutcome where
  | idle : AssessOutcome
  | rendered : Json → AssessOutcome
  | errorParse : PyExn → AssessOutcome
  | errorFailed : AssessOutcome

/-- `app._assess_job_match`: on the button press, both cached stage
results are serialized with `json.dumps` and handed to
`evaluate_candidate_job_fit`; a truthy result is subscripted and
decoded as `result[0]["value"]` and rendered, a falsy or absent one
shows the fixed failure message, and any exception inside the `try` is
caught and shown as an error message — nothing escapes. -/
def _assess_job_match (transport : HttpRequest → PostOutcome)
    (env : String → Option String)
    (job_details candidate_insights : Json) (buttonPressed : Bool) :
    AssessOutcome × List HttpRequest :=
  if buttonPressed then
    let (result, reqs) :=
      evaluate_candidate_job_fit transport env
        (pyJsonDumps candidate_insights) (pyJsonDumps job_details)
    match result with
    | some r =>
      if pyTruthyJson r then
        match (do
            let v0 ← pySubscriptNat (some r) 0
            let value ← pySubscriptStr v0 "value"
            pyJsonLoadsValue value : Except PyExn Json) with
        | Except.ok ma => (AssessOutcome.rendered ma, reqs)
        | Except.error e => (AssessOutcome.errorParse e, reqs)
      else (AssessOutcome.errorFailed, reqs)
    | none => (AssessOutcome.errorFailed, reqs)
  else (AssessOutcome.idle, [])

set_option maxRecDepth 200000

/-! Concrete fixtures used by the closed theorems below. -/

/-- Environment holding both insight-extraction credentials. -/
def envInsightFixture : String → Option String :=
  fun k => if k = "ROE_AI_AGENT_ID" then some "agent-1"
    else if k = "ROE_AI_BEARER_TOKEN" then some "token-1" else none

/-- The body shape the code actually consumes: a top-level list whose
first element carries the twice-encoded insights in its `value`
field. -/
def arrayInsightBody : String :=
  "[\x7b\"value\":\"\x7b\\\"name\\\":\\\"John Doe\\\",\\\"email\\\":\\\"john@x.com\\\",\\\"skills\\\":[\x7b\\\"name\\\":\\\"Python\\\",\\\"proficiency\\\":4\x7d]\x7d\"\x7d]"

/-- The body of the specification example: the same payload wrapped in
an object under a `result` key. -/
def specExampleInsightBody : String :=
  "\x7b\"result\":[\x7b\"value\":\"\x7b\\\"name\\\":\\\"John Doe\\\",\\\"email\\\":\\\"john@x.com\\\",\\\"skills\\\":[\x7b\\\"name\\\":\\\"Python\\\",\\\"proficiency\\\":4\x7d]\x7d\"\x7d]\x7d"

/-- The decoded profile of the specification example. -/
def johnDoeInsights : Json :=
  Json.obj [("name", Json.str "John Doe"), ("email", Json.str "john@x.com"),
    ("skills", Json.arr [Json.obj [("name", Json.str "Python"), ("proficiency", Json.num 4)]])]

/-- Claim C1: for every agent role, a falsy (absent or empty) agent id
or bearer token makes the corresponding extractor return `None` with an
empty request trace, so the transport is never invoked. -/
theorem missing_credentials_skip_transport (transport : HttpRequest → PostOutcome)
    (fs : String → Option String) (env : String → Option String)
    (pdf_path instruction page_range url form_selector ci jd : String)
    (ff : Option (List (String × String))) :
    (pyFalsyStr (env "ROE_AI_AGENT_ID") = true ∨ pyFalsyStr (env "ROE_AI_BEARER_TOKEN") = true →
       generate_insights transport fs env pdf_path instruction page_range = (none, [])) ∧
    (pyFalsyStr (env "ROE_AI_JOB_AGENT") = true ∨ pyFalsyStr (env "ROE_AI_BEARER_TOKEN") = true →
       extract_job_details transport env url form_selector ff = (none, [])) ∧
    (pyFalsyStr (env "ROE_AI_EVALUATE_AGENT") = true ∨ pyFalsyStr (env "ROE_AI_BEARER_TOKEN") = true →
       evaluate_candidate_job_fit transport env ci jd = (none, [])) := by
  refine ⟨fun h => ?_, fun h => ?_, fun h => ?_⟩ <;>
    rcases h with h | h <;>
      simp [generate_insights, extract_job_details, evaluate_candidate_job_fit, h]

/-- Claim C1, witness: with an empty environment all three extractors
return `None` and issue no request. -/
theorem missing_credentials_skip_transport_witness :
    generate_insights (fun _ => PostOutcome.exnRequest) (fun _ => none) (fun _ => none)
        "resume.pdf" "instr" "@PAGERANGE(1-3)" = (none, []) ∧
    extract_job_details (fun _ => PostOutcome.exnRequest) (fun _ => none)
        "https://jobs.example/1" "#job-description-form" none = (none, []) ∧
    evaluate_candidate_job_fit (fun _ => PostOutcome.exnRequest) (fun _ => none)
        "ci" "jd" = (none, []) :=
  ⟨(missing_credentials_skip_transport (fun _ => PostOutcome.exnRequest) (fun _ => none)
      (fun _ => none) "resume.pdf" "instr" "@PAGERANGE(1-3)"
      "https://jobs.example/1" "#job-description-form" "ci" "jd" none).1 (Or.inl rfl),
   (missing_credentials_skip_transport (fun _ => PostOutcome.exnRequest) (fun _ => none)
      (fun _ => none) "resume.pdf" "instr" "@PAGERANGE(1-3)"
      "https://jobs.example/1" "#job-description-form" "ci" "jd" none).2.1 (Or.inl rfl),
   (missing_credentials_skip_transport (fun _ => PostOutcome.exnRequest) (fun _ => none)
      (fun _ => none) "resume.pdf" "instr" "@PAGERANGE(1-3)"
      "https://jobs.example/1" "#job-description-form" "ci" "jd" none).2.2 (Or.inl rfl)⟩

/-- Claim C3, counterexample: with the spec example body — an object
under a `result` key — `result[0]` subscripts a dict with the integer
`0`, so the path raises an uncaught `KeyError` instead of yielding the
profile. -/
theorem insight_spec_body_counterexample :
    (_extract_resume_insights (fun _ => PostOutcome.response 200 specExampleInsightBody)
        envInsightFixture "PDFBYTES" "Please extract actionable insights from the candidates resume"
        "@PAGERANGE(1-3)").1 = Except.error PyExn.keyError := by rfl

/-- Claim C3 as amended: with an HTTP 200 body that is a top-level list
`[` value `]` carrying the example payload, the insight path yields the
profile with name John Doe, email john@x.com and the one Python skill
with proficiency 4, which the label function maps to Intermediate. -/
theorem insight_extractor_array_body_profile :
    (_extract_resume_insights (fun _ => PostOutcome.response 200 arrayInsightBody)
        envInsightFixture "PDFBYTES" "Please extract actionable insights from the candidates resume"
        "@PAGERANGE(1-3)").1 = Except.ok (some johnDoeInsights) ∧
    _get_proficiency_label 4 = "Intermediate" := ⟨by rfl, by rfl⟩

/-- Claim C4: when `generate_insights` returns `None` (here: missing
credentials, so not even a request is issued), `_extract_resume_insights`
does not reach its warning branch — `result[0]` raises a `TypeError`
that no handler catches, and the exception escapes the orchestrator. -/
theorem resume_insights_uncaught_typeerror :
    _extract_resume_insights (fun _ => PostOutcome.exnRequest) (fun _ => none) "PDFBYTES"
        "Please extract actionable insights from the candidates resume" "@PAGERANGE(1-3)"
      = (Except.error PyExn.typeError, []) := by rfl

/-- Claim C6: the proficiency bands are closed below — at most 2 is
Beginner, above 2 and at most 4 is Intermediate, above 4 is Advanced —
with the boundary values 2, 4 and 5 landing on Beginner, Intermediate
and Advanced. -/
theorem proficiency_label_bands (p : ℚ) :
    (p ≤ 2 → _get_proficiency_label p = "Beginner") ∧
    (2 < p → p ≤ 4 → _get_proficiency_label p = "Intermediate") ∧
    (4 < p → _get_proficiency_label p = "Advanced") ∧
    _get_proficiency_label 2 = "Beginner" ∧
    _get_proficiency_label 4 = "Intermediate" ∧
    _get_proficiency_label 5 = "Advanced" := by
  unfold _get_proficiency_label
  refine ⟨fun h => by rw [if_pos h], fun h1 h2 => ?_, fun h => ?_, by rfl, by rfl, by rfl⟩
  · rw [if_neg (by linarith), if_pos h2]
  · rw [if_neg (by linarith), if_neg (by linarith)]

/-- Claim C6, witness: the band implications applied at 1, 3 and 7. -/
theorem proficiency_label_bands_witness :
    _get_proficiency_label 1 = "Beginner" ∧
    _get_proficiency_label 3 = "Intermediate" ∧
    _get_proficiency_label 7 = "Advanced" :=
  ⟨(proficiency_label_bands 1).1 (by norm_num),
   (proficiency_label_bands 3).2.1 (by norm_num) (by norm_num),
   (proficiency_label_bands 7).2.2.1 (by norm_num)⟩

/-- Claim C9: calling the chart helper with an empty skills list runs
the dedented `with tab1:` block with `tab1` never assigned, raising an
unhandled `UnboundLocalError` instead of rendering an empty state. -/
theorem skills_chart_empty_crash :
    _create_skills_chart [] = Except.error PyExn.unboundLocalError := by rfl

/-- Claim C2, counterexample: `raise_for_status` accepts 3xx final
statuses, so a non-2xx response — here 300 with a valid JSON body —
yields the parsed body, not `None`. -/
theorem non2xx_not_none_counterexample :
    (process_text_with_ai_agent (fun _ => PostOutcome.response 300 "\x7b\"ok\": true\x7d")
        "agent-1" "token-1" []).1 = some (Json.obj [("ok", Json.bool true)]) := by rfl

/-- Claim C2 as amended: each Agent Client operation returns `None` —
with no exception escaping, the return being a plain option — when the
file is missing (file variant only, with no request issued), when the
transport raises, when the final status is 4xx or 5xx, or when the body
is not valid JSON. -/
theorem client_failures_yield_none (fs : String → Option String)
    (a t p instr pr body : String) (d : List (String × String)) (s : Nat) :
    (∀ transport, fs p = none →
       process_document_with_ai_agent transport fs a t p instr pr = (none, [])) ∧
    ((process_document_with_ai_agent (fun _ => PostOutcome.exnRequest) fs a t p instr pr).1 = none) ∧
    (400 ≤ s → s < 600 →
       (process_document_with_ai_agent (fun _ => PostOutcome.response s body) fs a t p instr pr).1 = none) ∧
    (pyJsonLoads body = none →
       (process_document_with_ai_agent (fun _ => PostOutcome.response 200 body) fs a t p instr pr).1 = none) ∧
    ((process_url_with_ai_agent (fun _ => PostOutcome.exnRequest) a t d).1 = none) ∧
    (400 ≤ s → s < 600 →
       (process_url_with_ai_agent (fun _ => PostOutcome.response s body) a t d).1 = none) ∧
    (pyJsonLoads body = none →
       (process_url_with_ai_agent (fun _ => PostOutcome.response 200 body) a t d).1 = none) ∧
    ((process_text_with_ai_agent (fun _ => PostOutcome.exnRequest) a t d).1 = none) ∧
    (400 ≤ s → s < 600 →
       (process_text_with_ai_agent (fun _ => PostOutcome.response s body) a t d).1 = none) ∧
    (pyJsonLoads body = none →
       (process_text_with_ai_agent (fun _ => PostOutcome.response 200 body) a t d).1 = none) := by
  refine ⟨fun transport hfs => ?_, ?_, fun h4 h6 => ?_, fun hj => ?_, ?_,
    fun h4 h6 => ?_, fun hj => ?_, ?_, fun h4 h6 => ?_, fun hj => ?_⟩
  · simp only [process_document_with_ai_agent]
    rw [hfs]
  · simp only [process_document_with_ai_agent]
    cases fs p <;> rfl
  · simp only [process_document_with_ai_agent, raiseForStatus, decide_eq_true_eq]
    cases fs p
    · rfl
    · dsimp only
      rw [if_pos ⟨h4, h6⟩]
  · simp only [process_document_with_ai_agent]
    cases fs p
    · rfl
    · simp [raiseForStatus, hj]
  · rfl
  · simp only [process_url_with_ai_agent, raiseForStatus, decide_eq_true_eq]
    rw [if_pos ⟨h4, h6⟩]
  · simp [process_url_with_ai_agent, raiseForStatus, hj]
  · rfl
  · simp only [process_text_with_ai_agent, raiseForStatus, decide_eq_true_eq]
    rw [if_pos ⟨h4, h6⟩]
  · simp [process_text_with_ai_agent, raiseForStatus, hj]

/-- Claim C2, witness: the failure branches evaluated at a missing
file, a faulting transport, a 500 status and a malformed body. -/
theorem client_failures_yield_none_witness :
    process_document_with_ai_agent (fun _ => PostOutcome.exnRequest) (fun _ => none)
        "agent-1" "token-1" "resume.pdf" "instr" "@PAGERANGE(1-3)" = (none, []) ∧
    (process_document_with_ai_agent (fun _ => PostOutcome.response 500 "oops")
        (fun _ => some "PDFBYTES") "agent-1" "token-1" "resume.pdf" "instr" "@PAGERANGE(1-3)").1 = none ∧
    (process_url_with_ai_agent (fun _ => PostOutcome.exnRequest) "agent-1" "token-1" []).1 = none ∧
    (process_text_with_ai_agent (fun _ => PostOutcome.response 200 "oops") "agent-1" "token-1" []).1 = none :=
  ⟨(client_failures_yield_none (fun _ => none) "agent-1" "token-1" "resume.pdf" "instr"
      "@PAGERANGE(1-3)" "oops" [] 500).1 (fun _ => PostOutcome.exnRequest) rfl,
   (client_failures_yield_none (fun _ => some "PDFBYTES") "agent-1" "token-1" "resume.pdf" "instr"
      "@PAGERANGE(1-3)" "oops" [] 500).2.2.1 (by norm_num) (by norm_num),
   (client_failures_yield_none (fun _ => none) "agent-1" "token-1" "resume.pdf" "instr"
      "@PAGERANGE(1-3)" "oops" [] 500).2.2.2.2.1,
   (client_failures_yield_none (fun _ => none) "agent-1" "token-1" "resume.pdf" "instr"
      "@PAGERANGE(1-3)" "oops" [] 500).2.2.2.2.2.2.2.2.2 rfl⟩

/-- The text operation always hands the transport exactly the one
request built from its arguments. -/
theorem process_text_reqs (transport : HttpRequest → PostOutcome) (a t : String)
    (d : List (String × String)) :
    (process_text_with_ai_agent transport a t d).2 = [⟨roeAgentUrl a, t, d, none⟩] := by
  unfold process_text_with_ai_agent
  dsimp only
  split
  · rfl
  · split
    · rfl
    · split <;> rfl

/-- The URL operation always hands the transport exactly the one
request built from its arguments. -/
theorem process_url_reqs (transport : HttpRequest → PostOutcome) (a t : String)
    (d : List (String × String)) :
    (process_url_with_ai_agent transport a t d).2 = [⟨roeAgentUrl a, t, d, none⟩] := by
  unfold process_url_with_ai_agent
  dsimp only
  split
  · rfl
  · split
    · rfl
    · split <;> rfl

/-- When the document operation succeeds the file was readable, so it
handed the transport exactly one request. -/
theorem process_document_success_len (transport : HttpRequest → PostOutcome)
    (fs : String → Option String) (a t p instr pr : String) (v : Json)
    (h : (process_document_with_ai_agent transport fs a t p instr pr).1 = some v) :
    (process_document_with_ai_agent transport fs a t p instr pr).2.length = 1 := by
  unfold process_document_with_ai_agent at h ⊢
  cases hfs : fs p
  · rw [hfs] at h
    simp at h
  · dsimp only
    split
    · rfl
    · split
      · rfl
      · split <;> rfl

/-- Fixtures for the fit-evaluation claims: the environment holding the
evaluation credentials and the example profile and job of the
specification. -/
def envEvaluateFixture : String → Option String :=
  fun k => if k = "ROE_AI_EVALUATE_AGENT" then some "agent-2"
    else if k = "ROE_AI_BEARER_TOKEN" then some "token-1" else none

/-- The example candidate profile with one Python skill. -/
def candidateExampleProfile : Json := Json.obj [("skills", Json.arr [Json.str "Python"])]

/-- The example job with one Python requirement. -/
def jobExampleDetails : Json := Json.obj [("requirements", Json.arr [Json.str "Python"])]

/-- The target string the Fit Evaluator builds for the example pair,
after the orchestrator has serialized both values once. -/
def exampleFitTarget : String :=
  fitEvaluationTarget (pyJsonDumps candidateExampleProfile) (pyJsonDumps jobExampleDetails)

/-- The one request the Fit Evaluator issues for the example pair under
the fixture credentials. -/
def exampleFitRequest : HttpRequest :=
  ⟨roeAgentUrl "agent-2", "token-1",
   [("prompt", fitEvaluationPrompt), ("target", exampleFitTarget)], none⟩

/-- Claim C5, counterexample: for the example pair the assessment step
issues exactly one request, and its `target` field does NOT contain
either serialized JSON blob verbatim — each blob was serialized a
second time on the way in, so its quotes arrive escaped. -/
theorem fit_target_verbatim_counterexample :
    (_assess_job_match (fun _ => PostOutcome.exnRequest) envEvaluateFixture
        jobExampleDetails candidateExampleProfile true).2 = [exampleFitRequest] ∧
    assocFind "target" exampleFitRequest.data = some exampleFitTarget ∧
    listContainsSeq (pyJsonDumps candidateExampleProfile).data exampleFitTarget.data = false ∧
    listContainsSeq (pyJsonDumps jobExampleDetails).data exampleFitTarget.data = false :=
  ⟨by rfl, by rfl, by rfl, by rfl⟩

/-- Claim C5 as amended: for every candidate and job value the
orchestrator passes on, the outbound `target` is the candidate header,
the once-serialized candidate blob serialized a second time (so not
verbatim), a blank line, then the job header and the twice-serialized
job blob, in candidate-then-job order. -/
theorem fit_target_labeled_double_encoded (transport : HttpRequest → PostOutcome)
    (env : String → Option String) (c j : Json)
    (hA : pyFalsyStr (env "ROE_AI_EVALUATE_AGENT") = false)
    (hB : pyFalsyStr (env "ROE_AI_BEARER_TOKEN") = false) :
    (_assess_job_match transport env j c true).2 =
      [⟨roeAgentUrl ((env "ROE_AI_EVALUATE_AGENT").getD ""), (env "ROE_AI_BEARER_TOKEN").getD "",
        [("prompt", fitEvaluationPrompt),
         ("target", "Candidate Insights:\n" ++ pyJsonDumpsOfStr (pyJsonDumps c) ++ "\n\n"
            ++ "Job Details:\n" ++ pyJsonDumpsOfStr (pyJsonDumps j))], none⟩] := by
  have heval : (evaluate_candidate_job_fit transport env (pyJsonDumps c) (pyJsonDumps j)).2 =
      [⟨roeAgentUrl ((env "ROE_AI_EVALUATE_AGENT").getD ""), (env "ROE_AI_BEARER_TOKEN").getD "",
        [("prompt", fitEvaluationPrompt),
         ("target", "Candidate Insights:\n" ++ pyJsonDumpsOfStr (pyJsonDumps c) ++ "\n\n"
            ++ "Job Details:\n" ++ pyJsonDumpsOfStr (pyJsonDumps j))], none⟩] := by
    simp only [evaluate_candidate_job_fit, fitEvaluationTarget, hA, hB, Bool.or_self,
      Bool.false_eq_true, if_false]
    cases hpt : process_text_with_ai_agent transport ((env "ROE_AI_EVALUATE_AGENT").getD "")
        ((env "ROE_AI_BEARER_TOKEN").getD "")
        [("prompt", fitEvaluationPrompt),
         ("target", "Candidate Insights:\n" ++ pyJsonDumpsOfStr (pyJsonDumps c) ++ "\n\n"
            ++ "Job Details:\n" ++ pyJsonDumpsOfStr (pyJsonDumps j))] with
    | mk r reqs =>
      have hlen := process_text_reqs transport ((env "ROE_AI_EVALUATE_AGENT").getD "")
        ((env "ROE_AI_BEARER_TOKEN").getD "")
        [("prompt", fitEvaluationPrompt),
         ("target", "Candidate Insights:\n" ++ pyJsonDumpsOfStr (pyJsonDumps c) ++ "\n\n"
            ++ "Job Details:\n" ++ pyJsonDumpsOfStr (pyJsonDumps j))]
      rw [hpt] at hlen
      cases r <;> exact hlen
  simp only [_assess_job_match, if_true]
  split <;>
    first
      | exact heval
      | (split <;>
          first
            | exact heval
            | (split <;> exact heval))

/-- Claim C5, witness: the amended statement applied to the example
pair under the fixture credentials. -/
theorem fit_target_labeled_double_encoded_witness :
    (_assess_job_match (fun _ => PostOutcome.exnRequest) envEvaluateFixture
        jobExampleDetails candidateExampleProfile true).2 =
      [⟨roeAgentUrl "agent-2", "token-1",
        [("prompt", fitEvaluationPrompt),
         ("target", "Candidate Insights:\n" ++ pyJsonDumpsOfStr (pyJsonDumps candidateExampleProfile)
            ++ "\n\n" ++ "Job Details:\n" ++ pyJsonDumpsOfStr (pyJsonDumps jobExampleDetails))],
        none⟩] :=
  fit_target_labeled_double_encoded (fun _ => PostOutcome.exnRequest) envEvaluateFixture
    candidateExampleProfile jobExampleDetails rfl rfl

/-- Claim C7: after one successful call of any of the three memoized
Agent Client operations from a fresh session cache, repeating the call
with identical arguments returns the same result, leaves the cache
unchanged and hands the transport nothing, the first call having
issued exactly one request. -/
theorem cached_repeat_call_single_transport (transport : HttpRequest → PostOutcome)
    (fs : String → Option String) (a t p instr pr : String)
    (du dt : List (String × String)) (v1 v2 v3 : Json)
    (c1 : DocCache) (c2 c3 : FormCache) (r1 r2 r3 : List HttpRequest) :
    (process_document_with_ai_agent_cached transport fs [] a t p instr pr = (some v1, c1, r1) →
       process_document_with_ai_agent_cached transport fs c1 a t p instr pr = (some v1, c1, []) ∧
         r1.length = 1) ∧
    (process_url_with_ai_agent_cached transport [] a t du = (some v2, c2, r2) →
       process_url_with_ai_agent_cached transport c2 a t du = (some v2, c2, []) ∧
         r2.length = 1) ∧
    (process_text_with_ai_agent_cached transport [] a t dt = (some v3, c3, r3) →
       process_text_with_ai_agent_cached transport c3 a t dt = (some v3, c3, []) ∧
         r3.length = 1) := by
  refine ⟨fun h => ?_, fun h => ?_, fun h => ?_⟩
  · unfold process_document_with_ai_agent_cached at h ⊢
    simp only [assocFind] at h
    cases he : process_document_with_ai_agent transport fs a t p instr pr with
    | mk r reqs =>
      rw [he] at h
      dsimp only at h
      injection h with h1 hrest
      injection hrest with h2 h3
      subst h1
      subst h2
      subst h3
      constructor
      · simp [assocFind]
      · have hv : (process_document_with_ai_agent transport fs a t p instr pr).1 = some v1 := by
          rw [he]
        have := process_document_success_len transport fs a t p instr pr v1 hv
        rw [he] at this
        exact this
  · unfold process_url_with_ai_agent_cached at h ⊢
    simp only [assocFind] at h
    cases he : process_url_with_ai_agent transport a t du with
    | mk r reqs =>
      rw [he] at h
      dsimp only at h
      injection h with h1 hrest
      injection hrest with h2 h3
      subst h1
      subst h2
      subst h3
      constructor
      · simp [assocFind]
      · have := process_url_reqs transport a t du
        rw [he] at this
        dsimp only at this
        rw [this]
        rfl
  · unfold process_text_with_ai_agent_cached at h ⊢
    simp only [assocFind] at h
    cases he : process_text_with_ai_agent transport a t dt with
    | mk r reqs =>
      rw [he] at h
      dsimp only at h
      injection h with h1 hrest
      injection hrest with h2 h3
      subst h1
      subst h2
      subst h3
      constructor
      · simp [assocFind]
      · have := process_text_reqs transport a t dt
        rw [he] at this
        dsimp only at this
        rw [this]
        rfl

/-- Claim C7, witness: a transport answering 200 with body `[]` makes
the first text call succeed; the repeated call is served from the
cache. -/
theorem cached_repeat_call_single_transport_witness :
    process_text_with_ai_agent_cached (fun _ => PostOutcome.response 200 "[]")
        [(("agent-1", "token-1", ([] : List (String × String))), some (Json.arr []))]
        "agent-1" "token-1" [] =
      (some (Json.arr []),
       [(("agent-1", "token-1", ([] : List (String × String))), some (Json.arr []))], []) ∧
    [HttpRequest.mk (roeAgentUrl "agent-1") "token-1" [] none].length = 1 :=
  (cached_repeat_call_single_transport (fun _ => PostOutcome.response 200 "[]")
      (fun _ => none) "agent-1" "token-1" "p" "i" "r" [] [] (Json.arr []) (Json.arr []) (Json.arr [])
      [(("agent-1", "token-1", "p", "i", "r"), some (Json.arr []))]
      [(("agent-1", "token-1", ([] : List (String × String))), some (Json.arr []))]
      [(("agent-1", "token-1", ([] : List (String × String))), some (Json.arr []))]
      [HttpRequest.mk (roeAgentUrl "agent-1") "token-1" [] none]
      [HttpRequest.mk (roeAgentUrl "agent-1") "token-1" [] none]
      [HttpRequest.mk (roeAgentUrl "agent-1") "token-1" [] none]).2.2 (by rfl)

/-- The assessment object the recommendation renderer receives: with
the `overall_recommendation` field when present, without it when
absent. -/
def assessmentWithRecommendation : Option String → Json
  | none => Json.obj []
  | some s => Json.obj [("overall_recommendation", Json.str s)]

/-- Claim C8: the recommendation rendering is total over string and
absent values and never raises — Strong Fit maps to the green check,
Moderate Fit to the orange warning, any other string and the absent
field (shown as Unknown) to the red cross. -/
theorem recommendation_mapping_total (r : Option String) :
    (r = some "Strong Fit" → _render_recommendation (assessmentWithRecommendation r) =
        Except.ok ("green", "✅", Json.str "Strong Fit")) ∧
    (r = some "Moderate Fit" → _render_recommendation (assessmentWithRecommendation r) =
        Except.ok ("orange", "⚠️", Json.str "Moderate Fit")) ∧
    (∀ s, r = some s → s ≠ "Strong Fit" → s ≠ "Moderate Fit" →
       _render_recommendation (assessmentWithRecommendation r) =
         Except.ok ("red", "❌", Json.str s)) ∧
    (r = none → _render_recommendation (assessmentWithRecommendation r) =
        Except.ok ("red", "❌", Json.str "Unknown")) ∧
    ∃ out, _render_recommendation (assessmentWithRecommendation r) = Except.ok out := by
  refine ⟨fun h => by subst h; rfl, fun h => by subst h; rfl,
    fun s hs hne1 hne2 => ?_, fun h => by subst h; rfl, ?_⟩
  · subst hs
    have h1 : jsonBeq (Json.str s) (Json.str "Strong Fit") = false := by
      simp [jsonBeq, hne1]
    have h2 : jsonBeq (Json.str s) (Json.str "Moderate Fit") = false := by
      simp [jsonBeq, hne2]
    simp [assessmentWithRecommendation, _render_recommendation, pyDictGet, assocFind, h1, h2]
  · cases r with
    | none => exact ⟨_, rfl⟩
    | some s => exact ⟨_, rfl⟩

/-- Claim C8, witness: the four mapping branches applied at Strong Fit,
Moderate Fit, Weak Fit and the absent field. -/
theorem recommendation_mapping_total_witness :
    _render_recommendation (assessmentWithRecommendation (some "Strong Fit")) =
        Except.ok ("green", "✅", Json.str "Strong Fit") ∧
    _render_recommendation (assessmentWithRecommendation (some "Moderate Fit")) =
        Except.ok ("orange", "⚠️", Json.str "Moderate Fit") ∧
    _render_recommendation (assessmentWithRecommendation (some "Weak Fit")) =
        Except.ok ("red", "❌", Json.str "Weak Fit") ∧
    _render_recommendation (assessmentWithRecommendation none) =
        Except.ok ("red", "❌", Json.str "Unknown") :=
  ⟨(recommendation_mapping_total (some "Strong Fit")).1 rfl,
   (recommendation_mapping_total (some "Moderate Fit")).2.1 rfl,
   (recommendation_mapping_total (some "Weak Fit")).2.2.1 "Weak Fit" rfl
     (by decide) (by decide),
   (recommendation_mapping_total none).2.2.2.1 rfl⟩

/-- Claim C10: a skill without a proficiency field is shown by
`_render_skills` as a badge with only the name (the labeling branch is
skipped), while `_create_skills_chart` substitutes proficiency 0 for
the same skill. -/
theorem absent_proficiency_divergence (nm : String) :
    _render_skills [Json.obj [("name", Json.str nm)]] =
      Except.ok (SkillsMarkdown.badges [⟨Json.str nm, none⟩]) ∧
    _create_skills_chart [Json.obj [("name", Json.str nm)]] =
      Except.ok [⟨Json.str nm, Json.num 0⟩] := ⟨by rfl, by rfl⟩
